import Mathlib

/-!
Verification of the HMAC driver in `src/hmac.rs` of `nss-gk-api`.

The driver delegates all cryptography to a PKCS#11-style provider
(NSS `PK11_*` calls). We embed the driver shallowly: the provider is an
abstract record of deterministic functions, each of which may fail with an
`Error`; `hmac` is a pure function that, besides its result, records the
trace of external calls it performed (including the process-wide `init`),
so that ordering and absence of calls can be stated. The `assert_eq!` at
the end of the Rust function is modelled as a distinct `panic` outcome,
never a normal return value.
-/

namespace NssGk

/-- Error type of the crate (`crate::Error`). The driver itself only ever
constructs `InternalError` (for the length-overflow check); provider
failures arrive already translated into `Error` via `into_result`, which we
model as an arbitrary `Error` value chosen by the provider. -/
inductive Error where
  | InternalError : Error
  | ProviderError : Nat → Error
deriving DecidableEq, Repr

/-- The closed enumeration of supported HMAC variants (`HmacAlgorithm`). -/
inductive HmacAlgorithm where
  | HMAC_SHA2_256 : HmacAlgorithm
  | HMAC_SHA2_384 : HmacAlgorithm
  | HMAC_SHA2_512 : HmacAlgorithm
  | HMAC_SHA3_256 : HmacAlgorithm
  | HMAC_SHA3_384 : HmacAlgorithm
  | HMAC_SHA3_512 : HmacAlgorithm
deriving DecidableEq, Repr

/-- Underlying hash identities (`crate::hash::HashAlgorithm`), as used by
`hmac_alg_to_hash_alg`. -/
inductive HashAlgorithm where
  | SHA2_256 : HashAlgorithm
  | SHA2_384 : HashAlgorithm
  | SHA2_512 : HashAlgorithm
  | SHA3_256 : HashAlgorithm
  | SHA3_384 : HashAlgorithm
  | SHA3_512 : HashAlgorithm
deriving DecidableEq, Repr

/-- PKCS#11 mechanism code `CKM_SHA256_HMAC` (value from the PKCS#11
standard, provided by the `pkcs11_bindings` crate). -/
def CKM_SHA256_HMAC : Nat := 0x251

/-- PKCS#11 mechanism code `CKM_SHA384_HMAC`. -/
def CKM_SHA384_HMAC : Nat := 0x261

/-- PKCS#11 mechanism code `CKM_SHA512_HMAC`. -/
def CKM_SHA512_HMAC : Nat := 0x271

/-- PKCS#11 mechanism code `CKM_SHA3_256_HMAC`. -/
def CKM_SHA3_256_HMAC : Nat := 0x2B1

/-- PKCS#11 mechanism code `CKM_SHA3_384_HMAC`. -/
def CKM_SHA3_384_HMAC : Nat := 0x2C1

/-- PKCS#11 mechanism code `CKM_SHA3_512_HMAC`. -/
def CKM_SHA3_512_HMAC : Nat := 0x2D1

/-- PKCS#11 attribute `CKA_SIGN` (key usage: signing). -/
def CKA_SIGN : Nat := 0x108

/-- NSS key-origin tag `PK11Origin::PK11_OriginUnwrap`. -/
def PK11_OriginUnwrap : Nat := 4

/-- `hmac_alg_to_ckm` from `src/hmac.rs`: maps each HMAC variant to its
PKCS#11 mechanism code. The `Result` return type is kept from the source;
the match is exhaustive, so no branch returns `Err`. -/
def hmac_alg_to_ckm : HmacAlgorithm → Except Error Nat
  | .HMAC_SHA2_256 => .ok CKM_SHA256_HMAC
  | .HMAC_SHA2_384 => .ok CKM_SHA384_HMAC
  | .HMAC_SHA2_512 => .ok CKM_SHA512_HMAC
  | .HMAC_SHA3_256 => .ok CKM_SHA3_256_HMAC
  | .HMAC_SHA3_384 => .ok CKM_SHA3_384_HMAC
  | .HMAC_SHA3_512 => .ok CKM_SHA3_512_HMAC

/-- `hmac_alg_to_hash_alg` from `src/hmac.rs`: maps each HMAC variant to
the underlying hash identity. -/
def hmac_alg_to_hash_alg : HmacAlgorithm → Except Error HashAlgorithm
  | .HMAC_SHA2_256 => .ok .SHA2_256
  | .HMAC_SHA2_384 => .ok .SHA2_384
  | .HMAC_SHA2_512 => .ok .SHA2_512
  | .HMAC_SHA3_256 => .ok .SHA3_256
  | .HMAC_SHA3_384 => .ok .SHA3_384
  | .HMAC_SHA3_512 => .ok .SHA3_512

/-- Modelled from the spec: `crate::hash::hash_alg_to_hash_len` lives in
`src/hash.rs`, which is not part of the source snapshot. The spec fixes the
output lengths as 32, 48 and 64 bytes for the 256-, 384- and 512-bit
families respectively, failing only on an unknown hash identity (which
cannot happen for this closed enumeration). -/
def hash_alg_to_hash_len : HashAlgorithm → Except Error Nat
  | .SHA2_256 => .ok 32
  | .SHA2_384 => .ok 48
  | .SHA2_512 => .ok 64
  | .SHA3_256 => .ok 32
  | .SHA3_384 => .ok 48
  | .SHA3_512 => .ok 64

/-- `hmac_alg_to_hmac_len` from `src/hmac.rs`: composes
`hmac_alg_to_hash_alg` with the hash-length lookup, propagating errors
with `?`. -/
def hmac_alg_to_hmac_len (alg : HmacAlgorithm) : Except Error Nat := do
  let hash_alg ← hmac_alg_to_hash_alg alg
  hash_alg_to_hash_len hash_alg

/-- One external call performed by the driver, with the arguments it was
given. `init` is the process-wide `crate::init()`; the others are the
provider (PK11) calls. -/
inductive Event where
  | init : Event
  | slotInternal : Event
  | importKey (slot mech origin usage : Nat) (key : List Nat) : Event
  | createCtx (mech usage symKey : Nat) (param : List Nat) : Event
  | digestOp (ctx : Nat) (data : List Nat) (len : Nat) : Event
  | digestFinal (ctx cap : Nat) : Event
deriving DecidableEq, Repr

/-- The cryptographic session provider (NSS / PKCS#11 module), as the set
of deterministic operations the driver consumes: slot acquisition, key
import, context creation, streaming feed, and finalize. Each may fail with
an `Error` (the source translates native statuses via `into_result`).
`digestFinal` returns the bytes it writes into the caller's buffer
together with the output length it reports. -/
structure Provider where
  internalSlot : Except Error Nat
  importSymKey : Nat → Nat → Nat → Nat → List Nat → Except Error Nat
  createContext : Nat → Nat → Nat → List Nat → Except Error Nat
  digestOp : Nat → List Nat → Nat → Except Error Unit
  digestFinal : Nat → Nat → Except Error (List Nat × Nat)

/-- Outcome of a call to `hmac`: a returned tag, a returned error, or an
abort of the process (the `assert_eq!` in the source failing). -/
inductive HmacResult where
  | ok (tag : List Nat) : HmacResult
  | err (e : Error) : HmacResult
  | panic : HmacResult
deriving DecidableEq, Repr

/-- Writing `w` bytes into the front of buffer `buf` through a pointer with
capacity `cap`: the first `min w.length cap` bytes are replaced, the rest
of the buffer is untouched, and the buffer's length never changes. This
models `PK11_DigestFinal` writing into the `Vec` through `as_mut_ptr`. -/
def writeInto (buf w : List Nat) (cap : Nat) : List Nat :=
  let w' := w.take cap
  w' ++ buf.drop w'.length

/-- `hmac` from `src/hmac.rs`, minus the leading `crate::init()` (see
`hmac`): the length check, then slot acquisition, key import, context
creation, single-shot feed, finalize, and the final length assertion.
Every provider call made is recorded, with its arguments, in the returned
trace, in order. -/
def hmacBody (p : Provider) (alg : HmacAlgorithm) (key data : List Nat) :
    HmacResult × List Event :=
  if data.length < 2 ^ 32 then
    let data_len := data.length
    match p.internalSlot with
    | .error e => (.err e, [.slotInternal])
    | .ok slot =>
      match hmac_alg_to_ckm alg with
      | .error e => (.err e, [.slotInternal])
      | .ok mech =>
        let tr2 := [Event.slotInternal,
          Event.importKey slot mech PK11_OriginUnwrap CKA_SIGN key]
        match p.importSymKey slot mech PK11_OriginUnwrap CKA_SIGN key with
        | .error e => (.err e, tr2)
        | .ok symKey =>
          match hmac_alg_to_ckm alg with
          | .error e => (.err e, tr2)
          | .ok mech2 =>
            let tr3 := tr2 ++ [Event.createCtx mech2 CKA_SIGN symKey []]
            match p.createContext mech2 CKA_SIGN symKey [] with
            | .error e => (.err e, tr3)
            | .ok ctx =>
              let tr4 := tr3 ++ [Event.digestOp ctx data data_len]
              match p.digestOp ctx data data_len with
              | .error e => (.err e, tr4)
              | .ok _ =>
                match hmac_alg_to_hmac_len alg with
                | .error e => (.err e, tr4)
                | .ok expected_len =>
                  let digest := List.replicate expected_len 0
                  let tr5 := tr4 ++ [Event.digestFinal ctx digest.length]
                  match p.digestFinal ctx digest.length with
                  | .error e => (.err e, tr5)
                  | .ok (w, digest_len) =>
                    let digest' := writeInto digest w digest.length
                    if digest_len = expected_len then (.ok digest', tr5)
                    else (.panic, tr5)
  else (.err .InternalError, [])

/-- `hmac` from `src/hmac.rs`: `crate::init()` runs first, unconditionally,
then the body. -/
def hmac (p : Provider) (alg : HmacAlgorithm) (key data : List Nat) :
    HmacResult × List Event :=
  let r := hmacBody p alg key data
  (r.1, Event.init :: r.2)

/-- The mechanism code each variant resolves to (the `Ok` payloads of
`hmac_alg_to_ckm`). -/
def ckmVal : HmacAlgorithm → Nat
  | .HMAC_SHA2_256 => CKM_SHA256_HMAC
  | .HMAC_SHA2_384 => CKM_SHA384_HMAC
  | .HMAC_SHA2_512 => CKM_SHA512_HMAC
  | .HMAC_SHA3_256 => CKM_SHA3_256_HMAC
  | .HMAC_SHA3_384 => CKM_SHA3_384_HMAC
  | .HMAC_SHA3_512 => CKM_SHA3_512_HMAC

/-- The expected tag length of each variant (the `Ok` payloads of
`hmac_alg_to_hmac_len`). -/
def lenVal : HmacAlgorithm → Nat
  | .HMAC_SHA2_256 => 32
  | .HMAC_SHA2_384 => 48
  | .HMAC_SHA2_512 => 64
  | .HMAC_SHA3_256 => 32
  | .HMAC_SHA3_384 => 48
  | .HMAC_SHA3_512 => 64

theorem ckm_ok (alg : HmacAlgorithm) : hmac_alg_to_ckm alg = .ok (ckmVal alg) := by
  cases alg <;> rfl

theorem len_ok (alg : HmacAlgorithm) :
    hmac_alg_to_hmac_len alg = .ok (lenVal alg) := by
  cases alg <;> rfl

theorem writeInto_length (buf w : List Nat) :
    (writeInto buf w buf.length).length = buf.length := by
  simp [writeInto]

/-- A provider on which every operation succeeds; `digestFinal` fills the
whole buffer with the byte `7` and reports the full capacity. -/
def okProvider : Provider where
  internalSlot := .ok 0
  importSymKey := fun _ _ _ _ _ => .ok 1
  createContext := fun _ _ _ _ => .ok 2
  digestOp := fun _ _ _ => .ok ()
  digestFinal := fun _ cap => .ok (List.replicate cap 7, cap)

/-- A provider whose key-import call fails; everything else succeeds. -/
def badImportProvider : Provider where
  internalSlot := .ok 0
  importSymKey := fun _ _ _ _ _ => .error (.ProviderError 5)
  createContext := fun _ _ _ _ => .ok 2
  digestOp := fun _ _ _ => .ok ()
  digestFinal := fun _ cap => .ok (List.replicate cap 7, cap)

/-- A provider whose finalize call succeeds but writes nothing and reports
an output length of 0, violating the driver's length table. -/
def badFinalProvider : Provider where
  internalSlot := .ok 0
  importSymKey := fun _ _ _ _ _ => .ok 1
  createContext := fun _ _ _ _ => .ok 2
  digestOp := fun _ _ _ => .ok ()
  digestFinal := fun _ _ => .ok ([], 0)

/-- C3: the three resolver functions are pure (they are plain functions in
this embedding), exhaustive over the six variants, and the error branch of
`hmac_alg_to_ckm` and `hmac_alg_to_hash_alg` is unreachable; the length
resolver is likewise defined everywhere. -/
theorem resolvers_exhaustive_and_never_err (alg : HmacAlgorithm) :
    (∃ c, hmac_alg_to_ckm alg = .ok c) ∧
    (∃ h, hmac_alg_to_hash_alg alg = .ok h) ∧
    (∃ n, hmac_alg_to_hmac_len alg = .ok n) := by
  cases alg <;> exact ⟨⟨_, rfl⟩, ⟨_, rfl⟩, ⟨_, rfl⟩⟩

/-- C6: `hmac` is deterministic — with the provider modelled as
deterministic functions, any two invocations on the same `(alg, key, data)`
produce identical results (the same tag on success, the same error on
failure) and identical call traces. -/
theorem hmac_deterministic (p : Provider) (alg : HmacAlgorithm)
    (key data : List Nat) (r₁ r₂ : HmacResult × List Event)
    (h₁ : r₁ = hmac p alg key data) (h₂ : r₂ = hmac p alg key data) :
    r₁ = r₂ :=
  h₁.trans h₂.symm

/-- Witness for C6 at a concrete provider and input. -/
theorem hmac_deterministic_witness :
    hmac okProvider .HMAC_SHA2_256 [1] [2] = hmac okProvider .HMAC_SHA2_256 [1] [2] :=
  hmac_deterministic okProvider .HMAC_SHA2_256 [1] [2] _ _ rfl rfl

/-- C10: `crate::init()` runs first on every invocation: the trace of every
call to `hmac` starts with the `init` event, and a call rejected for
oversized data has still performed `init` (and nothing else). -/
theorem hmac_init_runs_first (p : Provider) (alg : HmacAlgorithm)
    (key data : List Nat) :
    ((hmac p alg key data).2).head? = some Event.init ∧
    (2 ^ 32 ≤ data.length →
      hmac p alg key data = (.err .InternalError, [.init])) := by
  constructor
  · simp only [hmac, List.head?_cons]
  · intro h
    have hn : ¬ data.length < 2 ^ 32 := Nat.not_lt.mpr h
    simp only [hmac, hmacBody, if_neg hn]

/-- Witness for C10: the oversized-data clause at a concrete input. -/
theorem hmac_init_runs_first_witness :
    hmac okProvider .HMAC_SHA2_256 [] (List.replicate (2 ^ 32) 0) =
      (.err .InternalError, [.init]) :=
  (hmac_init_runs_first okProvider .HMAC_SHA2_256 [] (List.replicate (2 ^ 32) 0)).2
    (by rw [List.length_replicate])

/-- C2: when `data.len()` does not fit in a `u32`, `hmac` returns
`Error::InternalError` immediately and the trace shows no provider
operation at all (only the unconditional `init`). -/
theorem hmac_input_too_large (p : Provider) (alg : HmacAlgorithm)
    (key data : List Nat) (h : 2 ^ 32 ≤ data.length) :
    hmac p alg key data = (.err .InternalError, [.init]) := by
  have hn : ¬ data.length < 2 ^ 32 := Nat.not_lt.mpr h
  simp only [hmac, hmacBody, if_neg hn]

/-- Witness for C2 at a concrete oversized input. -/
theorem hmac_input_too_large_witness :
    hmac okProvider .HMAC_SHA3_512 [1] (List.replicate (2 ^ 32 + 1) 0) =
      (.err .InternalError, [.init]) :=
  hmac_input_too_large okProvider .HMAC_SHA3_512 [1] (List.replicate (2 ^ 32 + 1) 0)
    (by rw [List.length_replicate]; exact Nat.le_succ _)

/-- Inversion of the success path of `hmacBody`: a returned tag means the
data fitted, every provider call succeeded, the finalize reported exactly
the expected length, the tag is the finalize-written buffer, and the trace
is exactly the five provider calls in pipeline order. -/
theorem hmacBody_ok_inv (p : Provider) (alg : HmacAlgorithm)
    (key data : List Nat) (tag : List Nat)
    (h : (hmacBody p alg key data).1 = .ok tag) :
    ∃ slot symKey ctx w,
      p.internalSlot = .ok slot ∧
      p.importSymKey slot (ckmVal alg) PK11_OriginUnwrap CKA_SIGN key = .ok symKey ∧
      p.createContext (ckmVal alg) CKA_SIGN symKey [] = .ok ctx ∧
      p.digestOp ctx data data.length = .ok () ∧
      p.digestFinal ctx (lenVal alg) = .ok (w, lenVal alg) ∧
      tag = writeInto (List.replicate (lenVal alg) 0) w (lenVal alg) ∧
      (hmacBody p alg key data).2 =
        [.slotInternal,
         .importKey slot (ckmVal alg) PK11_OriginUnwrap CKA_SIGN key,
         .createCtx (ckmVal alg) CKA_SIGN symKey [],
         .digestOp ctx data data.length,
         .digestFinal ctx (lenVal alg)] := by
  by_cases hfit : data.length < 4294967296
  · rcases hs : p.internalSlot with e | slot
    · simp [hmacBody, hfit, hs] at h
    · rcases hi : p.importSymKey slot (ckmVal alg) PK11_OriginUnwrap CKA_SIGN key
        with e | symKey
      · simp [hmacBody, hfit, hs, ckm_ok, hi] at h
      · rcases hc : p.createContext (ckmVal alg) CKA_SIGN symKey [] with e | ctx
        · simp [hmacBody, hfit, hs, ckm_ok, hi, hc] at h
        · rcases hd : p.digestOp ctx data data.length with e | u
          · simp [hmacBody, hfit, hs, ckm_ok, hi, hc, hd] at h
          · cases u
            rcases hf : p.digestFinal ctx (lenVal alg) with e | wd
            · simp [hmacBody, hfit, hs, ckm_ok, hi, hc, hd, len_ok, hf] at h
            · obtain ⟨w, dl⟩ := wd
              by_cases hdl : dl = lenVal alg
              · subst hdl
                refine ⟨slot, symKey, ctx, w, rfl, hi, hc, hd, hf, ?_, ?_⟩
                · have h' := h
                  simp [hmacBody, hfit, hs, ckm_ok, hi, hc, hd, len_ok, hf]
                    at h'
                  exact h'.symm
                · simp [hmacBody, hfit, hs, ckm_ok, hi, hc, hd, len_ok, hf]
              · simp [hmacBody, hfit, hs, ckm_ok, hi, hc, hd, len_ok, hf, hdl]
                  at h
  · simp [hmacBody, hfit] at h

/-- C1: every `Ok` return of `hmac` is a byte sequence whose length is the
constant `expected_length_of(alg)` — 32 bytes for the 256-bit family, 48
for the 384-bit family, 64 for the 512-bit family. -/
theorem hmac_ok_tag_length (p : Provider) (alg : HmacAlgorithm)
    (key data : List Nat) (tag : List Nat) (tr : List Event)
    (h : hmac p alg key data = (.ok tag, tr)) :
    hmac_alg_to_hmac_len alg = .ok tag.length ∧ tag.length = lenVal alg ∧
    (tag.length = 32 ∨ tag.length = 48 ∨ tag.length = 64) := by
  have hb : (hmacBody p alg key data).1 = .ok tag := by
    have := congrArg Prod.fst h
    simpa [hmac] using this
  obtain ⟨slot, symKey, ctx, w, _, _, _, _, _, htag, _⟩ :=
    hmacBody_ok_inv p alg key data tag hb
  have hlen : tag.length = lenVal alg := by
    rw [htag]
    have := writeInto_length (List.replicate (lenVal alg) 0) w
    simpa using this
  refine ⟨?_, hlen, ?_⟩
  · rw [hlen]; exact len_ok alg
  · rw [hlen]; cases alg <;> simp [lenVal]

/-- Witness for C1 at a concrete successful run. -/
theorem hmac_ok_tag_length_witness :
    hmac_alg_to_hmac_len .HMAC_SHA2_384 = .ok (List.replicate 48 7).length ∧
    (List.replicate 48 7).length = lenVal .HMAC_SHA2_384 ∧
    ((List.replicate 48 7).length = 32 ∨ (List.replicate 48 7).length = 48 ∨
      (List.replicate 48 7).length = 64) :=
  hmac_ok_tag_length okProvider .HMAC_SHA2_384 [1] [2]
    (List.replicate 48 7)
    [.init, .slotInternal,
     .importKey 0 CKM_SHA384_HMAC PK11_OriginUnwrap CKA_SIGN [1],
     .createCtx CKM_SHA384_HMAC CKA_SIGN 1 [],
     .digestOp 2 [2] 1, .digestFinal 2 48]
    (by decide)

/-- C8: every successful `hmac` call performs, after `init`, exactly one
slot acquisition, one key import, one context creation, one data feed of
the entire buffer in a single call, and one finalize, in that order and
nothing else. -/
theorem hmac_success_call_sequence (p : Provider) (alg : HmacAlgorithm)
    (key data : List Nat) (tag : List Nat) (tr : List Event)
    (h : hmac p alg key data = (.ok tag, tr)) :
    ∃ slot symKey ctx,
      tr = [.init, .slotInternal,
            .importKey slot (ckmVal alg) PK11_OriginUnwrap CKA_SIGN key,
            .createCtx (ckmVal alg) CKA_SIGN symKey [],
            .digestOp ctx data data.length,
            .digestFinal ctx (lenVal alg)] := by
  have hb : (hmacBody p alg key data).1 = .ok tag := by
    have := congrArg Prod.fst h
    simpa [hmac] using this
  have htr : tr = Event.init :: (hmacBody p alg key data).2 := by
    have := congrArg Prod.snd h
    simpa [hmac] using this.symm
  obtain ⟨slot, symKey, ctx, w, _, _, _, _, _, _, htr2⟩ :=
    hmacBody_ok_inv p alg key data tag hb
  exact ⟨slot, symKey, ctx, by rw [htr, htr2]⟩

/-- Witness for C8 at a concrete successful run. -/
theorem hmac_success_call_sequence_witness :
    ∃ slot symKey ctx,
      [Event.init, Event.slotInternal,
       Event.importKey 0 CKM_SHA256_HMAC PK11_OriginUnwrap CKA_SIGN [9],
       Event.createCtx CKM_SHA256_HMAC CKA_SIGN 1 [],
       Event.digestOp 2 [5, 6] 2, Event.digestFinal 2 32] =
      [Event.init, Event.slotInternal,
       Event.importKey slot (ckmVal .HMAC_SHA2_256) PK11_OriginUnwrap CKA_SIGN [9],
       Event.createCtx (ckmVal .HMAC_SHA2_256) CKA_SIGN symKey [],
       Event.digestOp ctx [5, 6] (List.length [5, 6]),
       Event.digestFinal ctx (lenVal .HMAC_SHA2_256)] :=
  hmac_success_call_sequence okProvider .HMAC_SHA2_256 [9] [5, 6]
    (List.replicate 32 7)
    [.init, .slotInternal,
     .importKey 0 CKM_SHA256_HMAC PK11_OriginUnwrap CKA_SIGN [9],
     .createCtx CKM_SHA256_HMAC CKA_SIGN 1 [],
     .digestOp 2 [5, 6] 2, .digestFinal 2 32]
    (by decide)

/-- C4: a provider failure at any pipeline stage is returned immediately as
that error, and the trace stops at the failing call — later steps are never
attempted and no partial tag is returned. Each conjunct covers one stage:
slot acquisition, key import, context creation, data feed, finalize. -/
theorem hmac_provider_failure_stops_pipeline (p : Provider) (alg : HmacAlgorithm)
    (key data : List Nat) (hfit : data.length < 2 ^ 32) :
    (∀ e, p.internalSlot = .error e →
      hmac p alg key data = (.err e, [.init, .slotInternal])) ∧
    (∀ slot e, p.internalSlot = .ok slot →
      p.importSymKey slot (ckmVal alg) PK11_OriginUnwrap CKA_SIGN key = .error e →
      hmac p alg key data = (.err e,
        [.init, .slotInternal,
         .importKey slot (ckmVal alg) PK11_OriginUnwrap CKA_SIGN key])) ∧
    (∀ slot symKey e, p.internalSlot = .ok slot →
      p.importSymKey slot (ckmVal alg) PK11_OriginUnwrap CKA_SIGN key = .ok symKey →
      p.createContext (ckmVal alg) CKA_SIGN symKey [] = .error e →
      hmac p alg key data = (.err e,
        [.init, .slotInternal,
         .importKey slot (ckmVal alg) PK11_OriginUnwrap CKA_SIGN key,
         .createCtx (ckmVal alg) CKA_SIGN symKey []])) ∧
    (∀ slot symKey ctx e, p.internalSlot = .ok slot →
      p.importSymKey slot (ckmVal alg) PK11_OriginUnwrap CKA_SIGN key = .ok symKey →
      p.createContext (ckmVal alg) CKA_SIGN symKey [] = .ok ctx →
      p.digestOp ctx data data.length = .error e →
      hmac p alg key data = (.err e,
        [.init, .slotInternal,
         .importKey slot (ckmVal alg) PK11_OriginUnwrap CKA_SIGN key,
         .createCtx (ckmVal alg) CKA_SIGN symKey [],
         .digestOp ctx data data.length])) ∧
    (∀ slot symKey ctx e, p.internalSlot = .ok slot →
      p.importSymKey slot (ckmVal alg) PK11_OriginUnwrap CKA_SIGN key = .ok symKey →
      p.createContext (ckmVal alg) CKA_SIGN symKey [] = .ok ctx →
      p.digestOp ctx data data.length = .ok () →
      p.digestFinal ctx (lenVal alg) = .error e →
      hmac p alg key data = (.err e,
        [.init, .slotInternal,
         .importKey slot (ckmVal alg) PK11_OriginUnwrap CKA_SIGN key,
         .createCtx (ckmVal alg) CKA_SIGN symKey [],
         .digestOp ctx data data.length,
         .digestFinal ctx (lenVal alg)])) := by
  have hfit' : data.length < 4294967296 := hfit
  refine ⟨?_, ?_, ?_, ?_, ?_⟩
  · intro e he
    simp [hmac, hmacBody, hfit', he]
  · intro slot e hs hi
    simp [hmac, hmacBody, hfit', hs, ckm_ok, hi]
  · intro slot symKey e hs hi hc
    simp [hmac, hmacBody, hfit', hs, ckm_ok, hi, hc]
  · intro slot symKey ctx e hs hi hc hd
    simp [hmac, hmacBody, hfit', hs, ckm_ok, hi, hc, hd]
  · intro slot symKey ctx e hs hi hc hd hf
    simp [hmac, hmacBody, hfit', hs, ckm_ok, hi, hc, hd, len_ok, hf]

/-- Witness for C4: a failing key import surfaces the provider's error and
context creation is never attempted. -/
theorem hmac_provider_failure_stops_pipeline_witness :
    hmac badImportProvider .HMAC_SHA3_256 [8] [9] =
      (.err (.ProviderError 5),
       [.init, .slotInternal,
        .importKey 0 (ckmVal .HMAC_SHA3_256) PK11_OriginUnwrap CKA_SIGN [8]]) :=
  (hmac_provider_failure_stops_pipeline badImportProvider .HMAC_SHA3_256 [8] [9]
      (by decide)).2.1 0 (.ProviderError 5) rfl rfl

/-- C5: if finalize succeeds but reports an output length different from
`expected_length_of(alg)`, `hmac` aborts (the `assert_eq!` fires) instead
of returning any value; conversely a normal `Ok` return implies the
reported length equals the expected one. -/
theorem hmac_finalize_length_assertion (p : Provider) (alg : HmacAlgorithm)
    (key data : List Nat) (slot symKey ctx : Nat) (w : List Nat) (reported : Nat)
    (hfit : data.length < 2 ^ 32)
    (hs : p.internalSlot = .ok slot)
    (hi : p.importSymKey slot (ckmVal alg) PK11_OriginUnwrap CKA_SIGN key = .ok symKey)
    (hc : p.createContext (ckmVal alg) CKA_SIGN symKey [] = .ok ctx)
    (hd : p.digestOp ctx data data.length = .ok ())
    (hf : p.digestFinal ctx (lenVal alg) = .ok (w, reported)) :
    (reported ≠ lenVal alg → (hmac p alg key data).1 = .panic) ∧
    (∀ tag, (hmac p alg key data).1 = .ok tag → reported = lenVal alg) := by
  have hfit' : data.length < 4294967296 := hfit
  constructor
  · intro hne
    simp [hmac, hmacBody, hfit', hs, ckm_ok, hi, hc, hd, len_ok, hf, hne]
  · intro tag htag
    by_contra hne
    simp [hmac, hmacBody, hfit', hs, ckm_ok, hi, hc, hd, len_ok, hf, hne] at htag

/-- Witness for C5: a provider reporting length 0 for HMAC-SHA2-512 makes
the driver abort rather than return. -/
theorem hmac_finalize_length_assertion_witness :
    (hmac badFinalProvider .HMAC_SHA2_512 [1] [2]).1 = .panic :=
  (hmac_finalize_length_assertion badFinalProvider .HMAC_SHA2_512 [1] [2]
      0 1 2 [] 0 (by decide) rfl rfl rfl rfl rfl).1 (by decide)

/-- Once the key import has been reached with slot and key-handle known,
the trace continues with the context-creation call (same mechanism, empty
parameter), whatever happens afterwards. -/
theorem hmacBody_reaches_createCtx (p : Provider) (alg : HmacAlgorithm)
    (key data : List Nat) (slot symKey : Nat)
    (hfit : data.length < 2 ^ 32)
    (hs : p.internalSlot = .ok slot)
    (hi : p.importSymKey slot (ckmVal alg) PK11_OriginUnwrap CKA_SIGN key = .ok symKey) :
    ∃ rest, (hmacBody p alg key data).2 =
      Event.slotInternal ::
      Event.importKey slot (ckmVal alg) PK11_OriginUnwrap CKA_SIGN key ::
      Event.createCtx (ckmVal alg) CKA_SIGN symKey [] :: rest := by
  have hfit' : data.length < 4294967296 := hfit
  rcases hc : p.createContext (ckmVal alg) CKA_SIGN symKey [] with e | ctx
  · exact ⟨[], by simp [hmacBody, hfit', hs, ckm_ok, hi, hc]⟩
  · rcases hd : p.digestOp ctx data data.length with e | u
    · exact ⟨[.digestOp ctx data data.length],
        by simp [hmacBody, hfit', hs, ckm_ok, hi, hc, hd]⟩
    · cases u
      rcases hf : p.digestFinal ctx (lenVal alg) with e | wd
      · exact ⟨[.digestOp ctx data data.length, .digestFinal ctx (lenVal alg)],
          by simp [hmacBody, hfit', hs, ckm_ok, hi, hc, hd, len_ok, hf]⟩
      · obtain ⟨w, dl⟩ := wd
        by_cases hdl : dl = lenVal alg <;>
          exact ⟨[.digestOp ctx data data.length, .digestFinal ctx (lenVal alg)],
            by simp [hmacBody, hfit', hs, ckm_ok, hi, hc, hd, len_ok, hf, hdl]⟩

/-- Once the slot is acquired, the trace continues with the key-import
call, whatever the import's outcome. -/
theorem hmacBody_reaches_import (p : Provider) (alg : HmacAlgorithm)
    (key data : List Nat) (slot : Nat)
    (hfit : data.length < 2 ^ 32)
    (hs : p.internalSlot = .ok slot) :
    ∃ rest, (hmacBody p alg key data).2 =
      Event.slotInternal ::
      Event.importKey slot (ckmVal alg) PK11_OriginUnwrap CKA_SIGN key :: rest := by
  rcases hi : p.importSymKey slot (ckmVal alg) PK11_OriginUnwrap CKA_SIGN key
      with e | symKey
  · have hfit' : data.length < 4294967296 := hfit
    exact ⟨[], by simp [hmacBody, hfit', hs, ckm_ok, hi]⟩
  · obtain ⟨rest, hr⟩ :=
      hmacBody_reaches_createCtx p alg key data slot symKey hfit hs hi
    exact ⟨_, hr⟩

/-- C7: the key-import call and the context-creation call receive the same
mechanism code, namely the one `hmac_alg_to_ckm` resolves for `alg`, and
the context-creation call's mechanism parameter is empty. -/
theorem hmac_mechanism_agreement (p : Provider) (alg : HmacAlgorithm)
    (key data : List Nat) (slot symKey : Nat)
    (hfit : data.length < 2 ^ 32)
    (hs : p.internalSlot = .ok slot)
    (hi : p.importSymKey slot (ckmVal alg) PK11_OriginUnwrap CKA_SIGN key = .ok symKey) :
    ∃ mech,
      hmac_alg_to_ckm alg = .ok mech ∧
      Event.importKey slot mech PK11_OriginUnwrap CKA_SIGN key ∈
        (hmac p alg key data).2 ∧
      Event.createCtx mech CKA_SIGN symKey [] ∈ (hmac p alg key data).2 := by
  obtain ⟨rest, hr⟩ :=
    hmacBody_reaches_createCtx p alg key data slot symKey hfit hs hi
  refine ⟨ckmVal alg, ckm_ok alg, ?_, ?_⟩ <;> simp [hmac, hr]

/-- Witness for C7 at a concrete run. -/
theorem hmac_mechanism_agreement_witness :
    ∃ mech,
      hmac_alg_to_ckm .HMAC_SHA3_384 = .ok mech ∧
      Event.importKey 0 mech PK11_OriginUnwrap CKA_SIGN [3] ∈
        (hmac okProvider .HMAC_SHA3_384 [3] [4]).2 ∧
      Event.createCtx mech CKA_SIGN 1 [] ∈ (hmac okProvider .HMAC_SHA3_384 [3] [4]).2 :=
  hmac_mechanism_agreement okProvider .HMAC_SHA3_384 [3] [4] 0 1 (by decide) rfl rfl

/-- C9: the driver rejects nothing locally except oversized data: a
zero-length key passes the driver's own checks and is handed unmodified to
the key-import call, and zero-length data passes the 32-bit length check
and proceeds to the provider pipeline (slot acquisition and key import are
performed). -/
theorem hmac_no_local_rejection (p : Provider) (alg : HmacAlgorithm)
    (key data : List Nat) (slot : Nat)
    (hfit : data.length < 2 ^ 32)
    (hs : p.internalSlot = .ok slot) :
    Event.importKey slot (ckmVal alg) PK11_OriginUnwrap CKA_SIGN [] ∈
      (hmac p alg [] data).2 ∧
    Event.slotInternal ∈ (hmac p alg key []).2 ∧
    Event.importKey slot (ckmVal alg) PK11_OriginUnwrap CKA_SIGN key ∈
      (hmac p alg key []).2 := by
  obtain ⟨r1, h1⟩ := hmacBody_reaches_import p alg [] data slot hfit hs
  obtain ⟨r2, h2⟩ := hmacBody_reaches_import p alg key [] slot (by decide) hs
  refine ⟨?_, ?_, ?_⟩ <;> simp [hmac, h1, h2]

/-- Witness for C9 at a concrete run. -/
theorem hmac_no_local_rejection_witness :
    Event.importKey 0 (ckmVal .HMAC_SHA3_512) PK11_OriginUnwrap CKA_SIGN [] ∈
      (hmac okProvider .HMAC_SHA3_512 [] [7]).2 ∧
    Event.slotInternal ∈ (hmac okProvider .HMAC_SHA3_512 [5] []).2 ∧
    Event.importKey 0 (ckmVal .HMAC_SHA3_512) PK11_OriginUnwrap CKA_SIGN [5] ∈
      (hmac okProvider .HMAC_SHA3_512 [5] []).2 :=
  hmac_no_local_rejection okProvider .HMAC_SHA3_512 [5] [7] 0 (by decide) rfl

end NssGk
